import Mathlib

/-!
Verification development for the Agentic Regulatory Review Workbench
(`src/index.tsx`).

The program is a React single-page application whose observable core is a
single mutable `workspace` state record plus a handful of handler functions.
We embed that core shallowly:

* JS numbers are modeled as rationals (`ℚ`); counters that are always
  list lengths are modeled as `Nat`.
* JS objects live on a heap: `Workspace.store` is the heap of
  `AgentDefinition` objects, and the `agents` / `agentsRunConfig` fields hold
  references (indices) into it.  This is needed because the source
  initializes both fields from the same array (`agents: initialAgents,
  agentsRunConfig: initialAgents`), so the two lists alias the very same
  element objects, and `handleRunConfigChange` mutates an element object in
  place.
* Handlers that can throw a `TypeError` (dereferencing a missing array
  element) return `Option Workspace`; `none` means the exception propagates
  and the `setWorkspace` call is never reached.
* The external generative-model service is an oracle
  `ModelOracle : Nat → String → CallOutcome`, giving the outcome (response
  text and elapsed seconds, or a thrown error message) of the k-th service
  call of a run as a function of the call position and the input text.
* `handleRunChain` additionally returns the trace of inputs passed to the
  successive service invocations, so that invocation counts and handoff
  contents are provable.
-/

namespace Workbench

/-- JS numbers (binary floating point in the source) are modeled as exact
rationals. -/
abbrev JSNum := ℚ

/-- `params` of an agent: `{ temperature, maxOutputTokens }`. -/
structure AgentParams where
  temperature : JSNum
  maxOutputTokens : JSNum
  deriving Repr, DecidableEq

/-- One element of `initialAgents` / `agentsRunConfig` in the source. -/
structure AgentDefinition where
  name : String
  description : String
  model : String
  params : AgentParams
  system_prompt : String
  deriving Repr, DecidableEq

/-- One entry of `runLog`.  The source stores `latency.toFixed(2)` (the
elapsed seconds rounded to two decimals, as a display string); we keep the
rounded numeric value. -/
structure RunLogEntry where
  agentName : String
  model : String
  output : String
  latency : JSNum
  deriving Repr, DecidableEq

/-- The `metrics` record of the workspace state. -/
structure Metrics where
  ocr_pages : Nat
  chars : Nat
  agents_run : Nat
  latency : JSNum
  deriving Repr, DecidableEq

/-- The `workspace` state record.  `store` is the heap of agent objects;
`agents` and `agentsRunConfig` hold references into it (see module header). -/
structure Workspace where
  store : List AgentDefinition
  rawText : String
  agents : List Nat
  agentsRunConfig : List Nat
  runLog : List RunLogEntry
  metrics : Metrics
  isRunning : Bool
  error : Option String
  deriving Repr, DecidableEq

/-- The base `agents` list, with each reference dereferenced through the
heap: the sequence of agent objects the `agents` field currently denotes. -/
def baseAgents (w : Workspace) : List AgentDefinition :=
  w.agents.filterMap fun r => w.store.get? r

/-- The run-configuration list, dereferenced through the heap: the sequence
of agent objects the `agentsRunConfig` field currently denotes.  This is the
list the chain executor iterates over. -/
def derefAgents (w : Workspace) : List AgentDefinition :=
  w.agentsRunConfig.filterMap fun r => w.store.get? r

/-- The `model` field of each base agent, in order. -/
def baseAgentModels (w : Workspace) : List String :=
  w.agents.filterMap fun r => (w.store.get? r).map fun a => a.model

/-- In-place update of one heap cell (a no-op on a dangling reference). -/
def listModify (l : List α) (i : Nat) (f : α → α) : List α :=
  match l.get? i with
  | none => l
  | some a => l.set i (f a)

/-! ### Document ingestion (`handleRawTextChange`, `handleFileChange`,
`handlePdfUpload`) -/

/-- `handleRawTextChange`: replace `rawText` wholesale and refresh
`metrics.chars`.  (The auto-advance of the active tab lives in a separate
`useState` outside the workspace record and is not part of this state.) -/
def handleRawTextChange (w : Workspace) (newText : String) : Workspace :=
  { w with
    rawText := newText
    metrics := { w.metrics with chars := newText.length } }

/-- `handlePdfUpload`: the OCR service yields the recognized text of each
page in page order; the source accumulates `fullText += text + mm` where
`mm` is a blank-line string after every page, then replaces `rawText` and
sets `metrics.chars` and `metrics.ocr_pages`. -/
def handlePdfUpload (w : Workspace) (pages : List String) : Workspace :=
  let fullText := pages.foldl (fun acc text => acc ++ text ++ "\n\n") ""
  { w with
    rawText := fullText
    metrics := { w.metrics with chars := fullText.length, ocr_pages := pages.length } }

/-- An uploaded file, after the external reader / OCR collaborators are
abstracted away: either the full contents of a plain-text file, or the
per-page recognized texts of a PDF. -/
inductive UploadedFile where
  | text (contents : String)
  | pdf (pages : List String)
  deriving Repr, DecidableEq

/-- `handleFileChange`: dispatch on the file type; plain-text ingestion
replaces `rawText`, sets `metrics.chars` to the new length and
`metrics.ocr_pages` to 0; a PDF goes through `handlePdfUpload`. -/
def handleFileChange (w : Workspace) (file : UploadedFile) : Workspace :=
  match file with
  | .pdf pages => handlePdfUpload w pages
  | .text contents =>
    { w with
      rawText := contents
      metrics := { w.metrics with chars := contents.length, ocr_pages := 0 } }

/-- The reading of the spec sentence for the PDF text: the per-page texts
joined by a blank-line separator (separator between consecutive pages
only). -/
def specSeparatorConcat (pages : List String) : String :=
  String.intercalate "\n\n" pages

/-! ### Dashboard completion score (`TabDashboard`) -/

/-- The completion score computed in `TabDashboard` from the metrics. -/
def completionScore (m : Metrics) : Nat :=
  let score : Nat := 0
  let score := if m.ocr_pages > 0 ∨ m.chars > 1000 then score + 1 else score
  let score := if m.agents_run ≥ 2 then score + 1 else score
  let score := if m.chars > 5000 ∧ m.agents_run ≥ 4 then score + 1 else score
  score

/-- The `statusMap` lookup table of `TabDashboard` (a JS object literal with
keys 0 to 3; any other key reads as undefined). -/
def statusMap : Nat → Option String
  | 0 => some "Getting Started"
  | 1 => some "Warming Up"
  | 2 => some "On Track"
  | 3 => some "Wow! Pro Level"
  | _ => none

/-! ### Export (`downloadResults`) -/

/-- One element of the `chain` array of the exported JSON. -/
structure ChainExportEntry where
  agent : String
  model : String
  output : String
  deriving Repr, DecidableEq

/-- The exported JSON document built by `downloadResults`. -/
structure ExportData where
  guidance_excerpt : String
  chain : List ChainExportEntry
  metrics : Metrics
  deriving Repr, DecidableEq

/-- `downloadResults`: the export payload (`rawText.substring(0, 1000)` is
the first 1000 characters, clamped to the text length) together with the
download file name. -/
def downloadResults (w : Workspace) : ExportData × String :=
  ({ guidance_excerpt := w.rawText.take 1000
     chain := w.runLog.map fun e => { agent := e.agentName, model := e.model, output := e.output }
     metrics := w.metrics },
   "agent_chain_results.json")

/-! ### Initial state (`REGULATORY_ORCHESTRATOR_PROMPT`, `initialAgents`,
`initialGuidanceText`, the `useState` initializer) -/

/-- The shared orchestrator system prompt (a JS template literal; it starts
and ends with a newline). -/
def REGULATORY_ORCHESTRATOR_PROMPT : String :=
  "\nYou are an expert regulatory reviewer for medical devices. Your job is to:\n- Read guidance/regulations in Traditional Chinese and/or English.\n- Extract granular, testable requirements with traceability to the guidance (IDs, sections, references).\n- Evaluate dossier/evidence completeness, highlight gaps, risks, and remediation steps.\n- Produce structured JSON outputs plus a human-friendly summary and checklist.\n- Preserve bilingual fidelity where present (Traditional Chinese + English labels).\n- Be precise; avoid hallucinations; cite exact lines/sections, page numbers, or figure labels when available.\n\nGeneral rules:\n- Do not invent missing data. Mark as Missing and propose specific, minimal compliant evidence.\n- Keep outputs schema-valid JSON where requested. Provide short Markdown summary only where asked.\n- When OCR text is noisy, note uncertainties and recommend page-level re-scan.\n- No chain-of-thought. Provide only final reasoning succinctly as “rationale” fields when required.\n"

/-- The four initial agent definitions. -/
def initialAgents : List AgentDefinition :=
  [{ name := "RequirementExtractor"
     description := "Extracts structured requirements from the guidance."
     model := "gemini-2.5-flash"
     params := { temperature := 0.2, maxOutputTokens := 2000 }
     system_prompt := REGULATORY_ORCHESTRATOR_PROMPT ++
       "\nROLE: Requirement Extractor.\nTASK: Extract all explicit and implicit requirements from the provided guidance into a clean, deduplicated list with unique IDs.\nOUTPUT: JSON with fields: items[\x7bid, title, requirement, category, references, priority\x7d].\nSTYLE: concise, complete, bilingual labels if possible (Traditional Chinese and English)." },
   { name := "GapAnalyzer"
     description := "Compares provided dossier/evidence against extracted requirements to find gaps."
     model := "gemini-2.5-pro"
     params := { temperature := 0.2, maxOutputTokens := 2000 }
     system_prompt := REGULATORY_ORCHESTRATOR_PROMPT ++
       "\nROLE: Gap Analyzer.\nINPUTS: requirements JSON and dossier/evidence text.\nTASK: For each requirement, classify coverage (Covered/Partial/Missing), cite evidence snippets, and list missing evidence.\nOUTPUT: JSON with fields: coverage[\x7breq_id, status, evidence_snippets[], missing_evidence[], risk_level, remediation_suggestions[]\x7d]." },
   { name := "EvidenceMapper"
     description := "Maps documents/pages to requirements with traceability links."
     model := "gemini-2.5-flash"
     params := { temperature := 0.2, maxOutputTokens := 1800 }
     system_prompt := REGULATORY_ORCHESTRATOR_PROMPT ++
       "\nROLE: Evidence Mapper.\nTASK: Build a bidirectional traceability matrix between requirements and provided document sections/pages.\nOUTPUT: JSON with fields: trace[\x7breq_id, doc_id, page, snippet, confidence\x7d]." },
   { name := "ChecklistFormatter"
     description := "Produces a reviewer-ready checklist and summary."
     model := "gemini-2.5-flash"
     params := { temperature := 0.1, maxOutputTokens := 2200 }
     system_prompt := REGULATORY_ORCHESTRATOR_PROMPT ++
       "\nROLE: Checklist Formatter.\nTASK: Generate a final checklist table and executive summary (TC/EN bilingual section headers).\nOUTPUT: JSON \x7bsummary, checklist_markdown, key_risks[], next_actions[], glossary[]\x7d and Markdown preview." }]

/-- The initial guidance document text. -/
def initialGuidanceText : String :=
  "以下為依您提供之審查檢核表（繁體中文）所建置的 FDA/TFDA 醫療器材審查表（Markdown）。每一列的「狀態」欄位可勾選：AGREE / DISAGREE / NA，並保留「證據/連結」與「備註」欄位供上傳與紀錄。\n\n說明\n\n狀態填寫方式：□ AGREE □ DISAGREE □ NA（擇一勾選）\n可於「證據/連結」欄附上檔案位置、雲端資料夾或公開資料庫連結（如 510(k) 檢索、QMS 證書）\n表格已按原清單項次分節呈現，便於內外部審核追蹤\n一、本案及相關案件背景說明\n\n項次\t審查重點\t狀態\t證據/連結\t備註\n1-1\t符合優先審查之佐證文件/資料（二擇一）\t□ AGREE □ DISAGREE □ NA\t\t\n1-2\t列舉相關背景資料\t□ AGREE □ DISAGREE □ NA\t\t\n二、是否檢附本部核准類似品之相關資料\n\n項次\t審查重點\t狀態\t證據/連結\t備註\n2-1\t本部核准類似品資料（許可證字號、仿單/標籤核定本影本或比較表）\t□ AGREE □ DISAGREE □ NA\t\t若具此資料，2-2、2-3得免附\n2-2\t學術理論依據與研究報告資料\t□ AGREE □ DISAGREE □ NA\t\t\n2-3\t臨床試驗報告\t□ AGREE □ DISAGREE □ NA\t\t\n2-4\t是否屬無類似品醫療器材\t□ AGREE □ DISAGREE □ NA\t\t\n三、原廠同一產品不同品名之說明函正本\n\n項次\t審查重點\t狀態\t證據/連結\t備註\n3-1\t說明新舊品為相同產品並註明原許可證字號；附許可證與核定標籤/說明書/包裝影本\t□ AGREE □ DISAGREE □ NA\t\t\n四、申請書\n\n項次\t審查重點\t狀態\t證據/連結\t備註\n4-1\t申請書中英文繕打並依送審資料詳實填表\t□ AGREE □ DISAGREE □ NA\t\t\n4-2\t各欄位詳填，並加蓋醫療器材商及負責人印鑑\t□ AGREE □ DISAGREE □ NA\t\t\n4-3\t載明中文/英文品名、型號、規格，與製售證明及授權書相符\t□ AGREE □ DISAGREE □ NA\t\t\n4-4\t品名符合核定原則\t□ AGREE □ DISAGREE □ NA\t\t\n4-5\t品名冠商標：檢附商標註冊資料；冠他商名稱/商標：檢附同意函\t□ AGREE □ DISAGREE □ NA\t\t\n4-6\t申請醫療器材商名稱、地址與許可執照相符\t□ AGREE □ DISAGREE □ NA\t\t\n4-7\t製造業者名稱、地址\t□ AGREE □ DISAGREE □ NA\t\t\n4-8\t委託製造：分別列出委託者/受託製造者名稱、地址【Manufactured by A (…) for B (…)】\t□ AGREE □ DISAGREE □ NA\t\t\n4-9\t非同系列名稱之不同型號（以原廠說明書原名為準）須另案辦理\t□ AGREE □ DISAGREE □ NA\t\t\n"

/-- The initial workspace: the `useState` initializer.  In the source both
`agents` and `agentsRunConfig` are initialized to the very same
`initialAgents` array (no copy of any kind), so in the heap model both
fields hold the same four references. -/
def initialWorkspace : Workspace :=
  { store := initialAgents
    rawText := initialGuidanceText
    agents := [0, 1, 2, 3]
    agentsRunConfig := [0, 1, 2, 3]
    runLog := []
    metrics := { ocr_pages := 0, chars := initialGuidanceText.length, agents_run := 0, latency := 0 }
    isRunning := false
    error := none }

/-! ### Run-configuration editing (`handleRunConfigChange`) and handoff
editing (`handleHandoffEdit`) -/

/-- A value assigned through `handleRunConfigChange`: the UI passes strings
(for `model` and `system_prompt`) and numbers (for `params.temperature` and
`params.maxOutputTokens`). -/
inductive FieldValue where
  | str (s : String)
  | num (q : JSNum)
  deriving Repr, DecidableEq

/-- `newConfig[index].params[paramKey] = value`: assignment into the
`params` object, keyed by the dynamic `paramKey` string.  A key other than
the two existing ones, or a value of the wrong type, is outside the paths
the UI exercises; the typed embedding leaves the object unchanged there. -/
def setAgentParams (p : AgentParams) (paramKey : String) (v : FieldValue) : AgentParams :=
  match paramKey, v with
  | "temperature", .num q => { p with temperature := q }
  | "maxOutputTokens", .num q => { p with maxOutputTokens := q }
  | _, _ => p

/-- The field assignment of `handleRunConfigChange`: a dotted
`params.<key>` path updates the nested `params` object, any other `field`
is a top-level assignment. -/
def setAgentField (a : AgentDefinition) (field : String) (v : FieldValue) : AgentDefinition :=
  if field.startsWith "params." then
    let paramKey := ((field.splitOn ".").get? 1).getD ""
    { a with params := setAgentParams a.params paramKey v }
  else
    match field, v with
    | "name", .str s => { a with name := s }
    | "description", .str s => { a with description := s }
    | "model", .str s => { a with model := s }
    | "system_prompt", .str s => { a with system_prompt := s }
    | _, _ => a

/-- `handleRunConfigChange(index, field, value)`.  The source spreads the
run-configuration array (`[...workspace.agentsRunConfig]`) — a shallow copy
holding the same element references — then assigns through
`newConfig[index]`.  If `index` is out of range that dereference yields
`undefined` and the assignment throws a `TypeError` (modeled as `none`): the
`setWorkspace` call is never reached.  Otherwise the referenced agent object
is mutated in place on the heap. -/
def handleRunConfigChange (w : Workspace) (index : Nat) (field : String) (v : FieldValue) :
    Option Workspace :=
  let newConfig := w.agentsRunConfig
  match newConfig.get? index with
  | none => none
  | some r =>
    some { w with
      store := listModify w.store r fun a => setAgentField a field v
      agentsRunConfig := newConfig }

/-- `handleHandoffEdit(index, newOutput)`: replace the `output` field of the
run-log entry at `index`.  (As in `handleRunConfigChange`, an out-of-range
index would throw on the element dereference, modeled as `none`.) -/
def handleHandoffEdit (w : Workspace) (index : Nat) (newOutput : String) : Option Workspace :=
  match w.runLog.get? index with
  | none => none
  | some e => some { w with runLog := w.runLog.set index { e with output := newOutput } }

/-! ### Chain executor (`handleRunChain`) -/

/-- `latency.toFixed(2)`: the elapsed seconds rounded to two decimal
places. -/
def round2 (q : JSNum) : JSNum :=
  ((round (100 * q) : ℤ) : ℚ) / 100

/-- Result of one successful generative-model call: the response text (the
service may return no text, handled by `response.text ?? ""`) and the
elapsed wall-clock seconds measured around the call. -/
structure InvokeResult where
  text : Option String
  latency : JSNum
  deriving Repr, DecidableEq

/-- Outcome of one generative-model call: success, or a thrown error
carrying the message `e.message`. -/
inductive CallOutcome where
  | ok (r : InvokeResult)
  | fail (msg : String)
  deriving Repr, DecidableEq

/-- The external generative-model service, as seen by one run: the outcome
of the k-th service call (0-based) as a function of the call position and
the input text sent. -/
abbrev ModelOracle := Nat → String → CallOutcome

/-- The `for (const agentConfig of workspace.agentsRunConfig)` loop body of
`handleRunChain`.  Returns the accumulated run log, the accumulated
full-precision `totalLatency`, the caught error message (if any), and the
trace of input texts passed to the successive service calls.  On a thrown
call the loop stops: no later agent is invoked and the failing one is not
retried. -/
def runChainLoop (oracle : ModelOracle) :
    List AgentDefinition → String → List RunLogEntry × ℚ × Option String × List String
  | [], _ => ([], 0, none, [])
  | agentConfig :: rest, currentInput =>
    match oracle 0 currentInput with
    | .fail msg => ([], 0, some msg, [currentInput])
    | .ok r =>
      let outputText := r.text.getD ""
      let logEntry : RunLogEntry :=
        { agentName := agentConfig.name
          model := agentConfig.model
          output := outputText
          latency := round2 r.latency }
      let t := runChainLoop (fun k s => oracle (k + 1) s) rest outputText
      (logEntry :: t.1, r.latency + t.2.1, t.2.2.1, currentInput :: t.2.2.2)

/-- `handleRunChain(baseInput)`: clears `runLog` and `error`, runs the chain
over the (dereferenced) run configuration, and — in the `finally` block —
clears `isRunning` and sets `metrics.agents_run` and `metrics.latency` from
the completed prefix.  Returns the final workspace state together with the
trace of service-call inputs. -/
def handleRunChain (w : Workspace) (baseInput : String) (oracle : ModelOracle) :
    Workspace × List String :=
  let t := runChainLoop oracle (derefAgents w) baseInput
  ({ w with
      runLog := t.1
      error := t.2.2.1
      isRunning := false
      metrics := { w.metrics with agents_run := t.1.length, latency := t.2.1 } },
   t.2.2.2)

/-! ### Expected-value functions for runs whose call outcomes are fixed
per step (proof infrastructure) -/

/-- Shift a per-step result assignment past one completed step. -/
def shiftRes (res : Nat → InvokeResult) : Nat → InvokeResult :=
  fun k => res (k + 1)

/-- The run log of a run in which step k returns `res k`. -/
def successLog : (Nat → InvokeResult) → List AgentDefinition → List RunLogEntry
  | _, [] => []
  | res, cfg :: rest =>
    { agentName := cfg.name
      model := cfg.model
      output := (res 0).text.getD ""
      latency := round2 (res 0).latency } :: successLog (shiftRes res) rest

/-- The accumulated full-precision latency of such a run. -/
def successTotal : (Nat → InvokeResult) → List AgentDefinition → ℚ
  | _, [] => 0
  | res, _ :: rest => (res 0).latency + successTotal (shiftRes res) rest

/-- The inputs passed to the successive calls of such a run. -/
def successTrace : (Nat → InvokeResult) → List AgentDefinition → String → List String
  | _, [], _ => []
  | res, _ :: rest, input => input :: successTrace (shiftRes res) rest ((res 0).text.getD "")

/-- The input that step j of such a run receives (the initial input for
step 0, the previous step output afterwards). -/
def nextInput (res : Nat → InvokeResult) : Nat → String → String
  | 0, input => input
  | j + 1, _ => (res j).text.getD ""

/-- Concatenation of a list of strings with a copy of `sep` after every
element (the shape `fullText += text + sep` produces). -/
def concatTerminated (sep : String) : List String → String
  | [] => ""
  | t :: ts => t ++ sep ++ concatTerminated sep ts

/-- A sample completed two-entry run log, for concrete instantiations. -/
def sampleRunLog : List RunLogEntry :=
  [{ agentName := "RequirementExtractor"
     model := "gemini-2.5-flash"
     output := "first output"
     latency := 1 / 2 },
   { agentName := "GapAnalyzer"
     model := "gemini-2.5-pro"
     output := "second output"
     latency := 3 / 4 }]

/-- The initial workspace carrying the sample run log. -/
def sampleWorkspace : Workspace :=
  { initialWorkspace with runLog := sampleRunLog }

/-- A concrete per-step result assignment: step k answers with text `k` and
takes one second. -/
def resW : Nat → InvokeResult :=
  fun k => { text := some (toString k), latency := 1 }

/-- A concrete service in which every call succeeds with `resW`. -/
def oracleOK : ModelOracle :=
  fun k _ => CallOutcome.ok (resW k)

/-- A concrete service in which the first call succeeds and every later
call throws. -/
def oracleFail : ModelOracle :=
  fun k _ => if k = 0 then CallOutcome.ok (resW 0) else CallOutcome.fail "Service error"

end Workbench

namespace Workbench

/-! ### Claims about ingestion, score and export -/

/-- C5: after a plain-text file upload, a PDF/OCR ingestion, or a raw-text
paste/edit, the invariant `metrics.chars = rawText.length` holds on the
resulting workspace state. -/
theorem claim_c5_chars_invariant (w : Workspace) (t : String) (f : UploadedFile) :
    (handleRawTextChange w t).metrics.chars = (handleRawTextChange w t).rawText.length ∧
    (handleFileChange w f).metrics.chars = (handleFileChange w f).rawText.length := by
  refine ⟨rfl, ?_⟩
  cases f <;> rfl

/-- C8: the completion score is a function of `(ocr_pages, chars,
agents_run)` alone, equal to the additive (non-short-circuiting) sum of the
three threshold indicator points, and the three concrete instances of the
claim hold, with their dashboard labels. -/
theorem claim_c8_completion_score :
    (∀ m : Metrics, completionScore m =
      (if m.ocr_pages > 0 ∨ m.chars > 1000 then 1 else 0) +
      (if m.agents_run ≥ 2 then 1 else 0) +
      (if m.chars > 5000 ∧ m.agents_run ≥ 4 then 1 else 0)) ∧
    (∀ p c a l l', completionScore ⟨p, c, a, l⟩ = completionScore ⟨p, c, a, l'⟩) ∧
    completionScore ⟨0, 6000, 4, 0⟩ = 3 ∧ statusMap 3 = some "Wow! Pro Level" ∧
    completionScore ⟨0, 500, 0, 0⟩ = 0 ∧ statusMap 0 = some "Getting Started" ∧
    completionScore ⟨0, 1200, 2, 0⟩ = 2 := by
  refine ⟨?_, ?_, by decide, rfl, by decide, rfl, by decide⟩
  · intro m
    simp only [completionScore]
    split_ifs <;> rfl
  · intro p c a l l'
    simp only [completionScore]

/-- C9: the export payload has `guidance_excerpt` equal to exactly the
first `min 1000 rawText.length` characters of `rawText`, `chain` equal to
the run log projected to `{agent, model, output}` in log order, the
`metrics` record, and the artifact is named `agent_chain_results.json`. -/
theorem claim_c9_export (w : Workspace) :
    (downloadResults w).1.guidance_excerpt.data =
      w.rawText.data.take (min 1000 w.rawText.length) ∧
    (downloadResults w).1.guidance_excerpt.length = min 1000 w.rawText.length ∧
    (downloadResults w).1.chain =
      w.runLog.map (fun e => { agent := e.agentName, model := e.model, output := e.output }) ∧
    (downloadResults w).1.metrics = w.metrics ∧
    (downloadResults w).2 = "agent_chain_results.json" := by
  have hlen : ∀ s : String, s.length = s.data.length := fun _ => rfl
  have hdata : (downloadResults w).1.guidance_excerpt.data = w.rawText.data.take 1000 :=
    String.data_take w.rawText 1000
  have hmin : w.rawText.data.take (min 1000 w.rawText.length) = w.rawText.data.take 1000 := by
    rcases le_total 1000 w.rawText.length with h | h
    · rw [min_eq_left h]
    · rw [min_eq_right h, hlen, List.take_length,
        List.take_of_length_le (by rw [← hlen]; exact h)]
  refine ⟨by rw [hdata, hmin], ?_, rfl, rfl, rfl⟩
  rw [hlen, hdata, List.length_take, ← hlen]

/-! ### Claims about the agent registry and the handoff editor -/

/-- C1 (refuted — code bug): `agentsRunConfig` is initialized to the very
`initialAgents` array, so base and run-configuration lists alias the same
element objects, and `handleRunConfigChange` assigns into the shared object.
Concretely, on the initial workspace, setting run-configuration agent 0
field `model` to `gemini-2.5-pro` also changes base `agents[0].model`:
the base list is NOT left unchanged. -/
theorem claim_c1_base_agent_mutated :
    baseAgentModels initialWorkspace =
      ["gemini-2.5-flash", "gemini-2.5-pro", "gemini-2.5-flash", "gemini-2.5-flash"] ∧
    (handleRunConfigChange initialWorkspace 0 "model"
        (FieldValue.str "gemini-2.5-pro")).map baseAgentModels =
      some ["gemini-2.5-pro", "gemini-2.5-pro", "gemini-2.5-flash", "gemini-2.5-flash"] :=
  ⟨by decide, by decide⟩

/-- C10: `handleRunConfigChange` performs no bounds check: an index outside
the run-configuration list dereferences a missing element and throws a
`TypeError` (the `none` outcome — the state update is never reached, so the
workspace is unchanged), while an in-range index always reaches the state
update. -/
theorem claim_c10_index_precondition (w : Workspace) (i : Nat) (field : String) (v : FieldValue) :
    (w.agentsRunConfig.length ≤ i → handleRunConfigChange w i field v = none) ∧
    (i < w.agentsRunConfig.length → (handleRunConfigChange w i field v).isSome = true) := by
  constructor
  · intro h
    simp [handleRunConfigChange, List.getElem?_eq_none h]
  · intro h
    simp [handleRunConfigChange, List.getElem?_eq_getElem h]

/-- Witness for C10 on the initial workspace (4 run-configuration entries):
index 7 throws, index 0 succeeds. -/
theorem claim_c10_witness :
    initialWorkspace.agentsRunConfig.length ≤ 7 ∧
    handleRunConfigChange initialWorkspace 7 "model" (FieldValue.str "x") = none ∧
    0 < initialWorkspace.agentsRunConfig.length ∧
    (handleRunConfigChange initialWorkspace 0 "model" (FieldValue.str "x")).isSome = true :=
  ⟨by decide,
   (claim_c10_index_precondition initialWorkspace 7 "model" (FieldValue.str "x")).1 (by decide),
   by decide,
   (claim_c10_index_precondition initialWorkspace 0 "model" (FieldValue.str "x")).2 (by decide)⟩

/-- C7: editing entry `i` of the run log replaces only that entry's
`output`; its other fields, every other entry, the metrics (in particular
`metrics.latency`) and every other workspace field are unchanged, and no
service call is involved (the operation takes no oracle at all). -/
theorem claim_c7_local_edit (w : Workspace) (i : Nat) (t : String) (h : i < w.runLog.length) :
    ∃ w', handleHandoffEdit w i t = some w' ∧
      w'.runLog.length = w.runLog.length ∧
      (∀ e, w.runLog.get? i = some e → w'.runLog.get? i = some { e with output := t }) ∧
      (∀ j, j ≠ i → w'.runLog.get? j = w.runLog.get? j) ∧
      w'.metrics = w.metrics ∧ w'.rawText = w.rawText ∧ w'.store = w.store ∧
      w'.agents = w.agents ∧ w'.agentsRunConfig = w.agentsRunConfig ∧
      w'.isRunning = w.isRunning ∧ w'.error = w.error := by
  have he : w.runLog.get? i = some w.runLog[i] := by
    rw [List.get?_eq_getElem?]
    exact List.getElem?_eq_getElem h
  refine ⟨{ w with runLog := w.runLog.set i { w.runLog[i] with output := t } },
    by simp [handleHandoffEdit, List.getElem?_eq_getElem h], by simp, ?_, ?_,
    rfl, rfl, rfl, rfl, rfl, rfl, rfl⟩
  · intro e he'
    have hee : e = w.runLog[i] := by
      rw [he'] at he
      exact Option.some.inj he
    subst hee
    simp [List.get?_eq_getElem?, List.getElem?_set_self h]
  · intro j hj
    simp [List.get?_eq_getElem?, List.getElem?_set_ne (show i ≠ j from fun hh => hj hh.symm)]

/-- Witness for C7: editing entry 0 of the sample two-entry run log. -/
theorem claim_c7_witness :
    0 < sampleWorkspace.runLog.length ∧
    (∃ w', handleHandoffEdit sampleWorkspace 0 "edited text" = some w' ∧
      w'.runLog.length = sampleWorkspace.runLog.length ∧
      (∀ e, sampleWorkspace.runLog.get? 0 = some e →
        w'.runLog.get? 0 = some { e with output := "edited text" }) ∧
      (∀ j, j ≠ 0 → w'.runLog.get? j = sampleWorkspace.runLog.get? j) ∧
      w'.metrics = sampleWorkspace.metrics ∧ w'.rawText = sampleWorkspace.rawText ∧
      w'.store = sampleWorkspace.store ∧ w'.agents = sampleWorkspace.agents ∧
      w'.agentsRunConfig = sampleWorkspace.agentsRunConfig ∧
      w'.isRunning = sampleWorkspace.isRunning ∧ w'.error = sampleWorkspace.error) :=
  ⟨by decide, claim_c7_local_edit sampleWorkspace 0 "edited text" (by decide)⟩

/-! ### Claims about PDF ingestion text assembly -/

/-- Folding `fun a t => a ++ t ++ sep` appends a terminated copy of every
element to the accumulator. -/
theorem foldl_append_terminated (sep : String) (l : List String) :
    ∀ acc : String, l.foldl (fun a t => a ++ t ++ sep) acc = acc ++ concatTerminated sep l := by
  induction l with
  | nil => intro acc; simp [concatTerminated]
  | cons t ts ih =>
    intro acc
    rw [List.foldl_cons, ih]
    simp [concatTerminated, String.append_assoc]

/-- The accumulator loop of `String.intercalate`, followed by one more
separator, is terminated concatenation. -/
theorem intercalate_go_append (sep : String) (l : List String) :
    ∀ acc : String,
      String.intercalate.go acc sep l ++ sep = acc ++ sep ++ concatTerminated sep l := by
  induction l with
  | nil => intro acc; simp [String.intercalate.go, concatTerminated]
  | cons a as ih =>
    intro acc
    show String.intercalate.go (acc ++ sep ++ a) sep as ++ sep = _
    rw [ih]
    simp [concatTerminated, String.append_assoc]

/-- The text `handlePdfUpload` assembles from a nonempty page list is the
blank-line intercalation of the pages followed by one extra trailing
blank-line separator. -/
theorem pdf_fold_eq_intercalate (p : String) (ps : List String) :
    (p :: ps).foldl (fun acc text => acc ++ text ++ "\n\n") "" =
      String.intercalate "\n\n" (p :: ps) ++ "\n\n" := by
  rw [foldl_append_terminated, String.empty_append]
  simp only [String.intercalate]
  rw [intercalate_go_append]
  simp [concatTerminated, String.append_assoc]

/-- C6 counterexample: a one-page document with recognized text `A` yields
`rawText = "A\n\n"`, not the bare separator-intercalation `"A"`: the claim
as stated (pages joined by a blank-line separator) is false. -/
theorem claim_c6_counterexample :
    (handlePdfUpload initialWorkspace ["A"]).rawText = "A\n\n" ∧
    specSeparatorConcat ["A"] = "A" ∧
    (handlePdfUpload initialWorkspace ["A"]).rawText ≠ specSeparatorConcat ["A"] :=
  ⟨by decide, by decide, by decide⟩

/-- C6 (amended): for a PDF with at least one page, `rawText` is the
blank-line intercalation of the per-page texts in page order followed by a
trailing blank-line separator after the last page; `metrics.ocr_pages` is
the page count and `metrics.chars` the new text length; plain-text file
ingestion sets `metrics.ocr_pages` to 0. -/
theorem claim_c6_amended (w : Workspace) (pages : List String) (h : pages ≠ []) :
    (handlePdfUpload w pages).rawText = specSeparatorConcat pages ++ "\n\n" ∧
    (handlePdfUpload w pages).metrics.ocr_pages = pages.length ∧
    (handlePdfUpload w pages).metrics.chars = (handlePdfUpload w pages).rawText.length ∧
    ∀ contents, (handleFileChange w (UploadedFile.text contents)).metrics.ocr_pages = 0 := by
  obtain ⟨p, ps, rfl⟩ := List.exists_cons_of_ne_nil h
  refine ⟨?_, rfl, rfl, fun _ => rfl⟩
  show (p :: ps).foldl (fun acc text => acc ++ text ++ "\n\n") "" =
    String.intercalate "\n\n" (p :: ps) ++ "\n\n"
  exact pdf_fold_eq_intercalate p ps

/-! ### Executor lemmas: runs with per-step outcomes fixed by `res` -/

/-- A run in which every step succeeds with its `res` outcome computes the
expected log, total latency, no error, and the expected input trace. -/
theorem runChainLoop_success :
    ∀ (cfgs : List AgentDefinition) (oracle : ModelOracle) (res : Nat → InvokeResult)
      (input : String),
      (∀ k, k < cfgs.length → ∀ s, oracle k s = CallOutcome.ok (res k)) →
      runChainLoop oracle cfgs input =
        (successLog res cfgs, successTotal res cfgs, none, successTrace res cfgs input) := by
  intro cfgs
  induction cfgs with
  | nil => intro oracle res input _; rfl
  | cons cfg rest ih =>
    intro oracle res input h
    have h0 : oracle 0 input = CallOutcome.ok (res 0) := h 0 (by simp) input
    have hrec := ih (fun k s => oracle (k + 1) s) (shiftRes res) ((res 0).text.getD "")
      (fun k hk s => h (k + 1) (by simpa using Nat.succ_lt_succ hk) s)
    simp only [runChainLoop, h0, hrec, successLog, successTotal, successTrace, shiftRes]

/-- The input that the next step of a shifted run receives. -/
theorem nextInput_shift (res : Nat → InvokeResult) (j : Nat) (input : String) :
    nextInput (shiftRes res) j ((res 0).text.getD "") = nextInput res (j + 1) input := by
  cases j with
  | zero => rfl
  | succ k => rfl

/-- A run whose first failing step is step j (every earlier step succeeds
with its `res` outcome, step j always throws `msg`) computes the expected
prefix log and totals, the caught message, and a trace covering exactly the
j successful calls plus the one failing call. -/
theorem runChainLoop_fail :
    ∀ (cfgs : List AgentDefinition) (oracle : ModelOracle) (res : Nat → InvokeResult)
      (msg : String) (j : Nat) (input : String),
      j < cfgs.length →
      (∀ k, k < j → ∀ s, oracle k s = CallOutcome.ok (res k)) →
      (∀ s, oracle j s = CallOutcome.fail msg) →
      runChainLoop oracle cfgs input =
        (successLog res (cfgs.take j), successTotal res (cfgs.take j), some msg,
         successTrace res (cfgs.take j) input ++ [nextInput res j input]) := by
  intro cfgs
  induction cfgs with
  | nil => intro _ _ _ j _ hj _ _; exact absurd hj (by simp)
  | cons cfg rest ih =>
    intro oracle res msg j input hj hok hfail
    cases j with
    | zero =>
      have h0 : oracle 0 input = CallOutcome.fail msg := hfail input
      simp only [runChainLoop, h0, List.take_zero, successLog, successTotal, successTrace,
        nextInput, List.nil_append]
    | succ j' =>
      have h0 : oracle 0 input = CallOutcome.ok (res 0) := hok 0 (Nat.succ_pos j') input
      have hrec := ih (fun k s => oracle (k + 1) s) (shiftRes res) msg j'
        ((res 0).text.getD "") (Nat.lt_of_succ_lt_succ hj)
        (fun k hk s => hok (k + 1) (Nat.succ_lt_succ hk) s)
        (fun s => hfail s)
      rw [nextInput_shift res j' input] at hrec
      simp only [runChainLoop, h0, hrec, List.take_succ_cons, successLog, successTotal,
        successTrace, shiftRes, List.cons_append]

/-- The expected log has one entry per configured agent. -/
theorem successLog_length :
    ∀ (cfgs : List AgentDefinition) (res : Nat → InvokeResult),
      (successLog res cfgs).length = cfgs.length := by
  intro cfgs
  induction cfgs with
  | nil => intro res; rfl
  | cons cfg rest ih => intro res; simp [successLog, ih]

/-- The expected trace has one input per configured agent. -/
theorem successTrace_length :
    ∀ (cfgs : List AgentDefinition) (res : Nat → InvokeResult) (input : String),
      (successTrace res cfgs input).length = cfgs.length := by
  intro cfgs
  induction cfgs with
  | nil => intro res input; rfl
  | cons cfg rest ih => intro res input; simp [successTrace, ih]

/-- The accumulated full-precision latency is the sum of the per-step
latencies. -/
theorem successTotal_eq_sum :
    ∀ (cfgs : List AgentDefinition) (res : Nat → InvokeResult),
      successTotal res cfgs = ∑ k ∈ Finset.range cfgs.length, (res k).latency := by
  intro cfgs
  induction cfgs with
  | nil => intro res; simp [successTotal]
  | cons cfg rest ih =>
    intro res
    rw [List.length_cons, Finset.sum_range_succ']
    simp only [successTotal, ih (shiftRes res), shiftRes]
    ring

/-- The k-th expected log entry records the k-th agent name and model, the
k-th output (defaulted to the empty string) and the rounded k-th latency. -/
theorem successLog_entry :
    ∀ (cfgs : List AgentDefinition) (res : Nat → InvokeResult) (k : Nat)
      (cfg : AgentDefinition),
      cfgs.get? k = some cfg →
      (successLog res cfgs).get? k =
        some { agentName := cfg.name, model := cfg.model,
               output := (res k).text.getD "", latency := round2 (res k).latency } := by
  intro cfgs
  induction cfgs with
  | nil => intro res k cfg h; simp at h
  | cons c rest ih =>
    intro res k cfg h
    cases k with
    | zero =>
      simp only [List.get?_cons_zero, Option.some.injEq] at h
      subst h
      simp [successLog]
    | succ k' =>
      simp only [List.get?_cons_succ] at h
      simpa [successLog, shiftRes] using ih (shiftRes res) k' cfg h

/-- Two-decimal rounding moves a value by at most 1/200. -/
theorem round2_abs_le (q : ℚ) : |round2 q - q| ≤ 1 / 200 := by
  have h := abs_sub_round (100 * q)
  have heq : round2 q - q = -((100 * q - (round (100 * q) : ℤ)) / 100) := by
    unfold round2; ring
  rw [heq, abs_neg, abs_div]
  have h100 : |(100 : ℚ)| = 100 := by norm_num
  rw [h100]
  rw [div_le_div_iff₀ (by norm_num) (by norm_num)]
  linarith

/-- The sum of the displayed (rounded) latencies differs from the
accumulated full-precision total by at most 1/200 per step. -/
theorem latency_sum_close :
    ∀ (cfgs : List AgentDefinition) (res : Nat → InvokeResult),
      |((successLog res cfgs).map RunLogEntry.latency).sum - successTotal res cfgs| ≤
        cfgs.length * (1 / 200) := by
  intro cfgs
  induction cfgs with
  | nil => intro res; simp [successLog, successTotal]
  | cons c rest ih =>
    intro res
    have h1 := round2_abs_le (res 0).latency
    have h2 := ih (shiftRes res)
    simp only [successLog, successTotal, List.map_cons, List.sum_cons, List.length_cons]
    have hsplit :
        round2 (res 0).latency + ((successLog (shiftRes res) rest).map RunLogEntry.latency).sum -
            ((res 0).latency + successTotal (shiftRes res) rest) =
          (round2 (res 0).latency - (res 0).latency) +
            (((successLog (shiftRes res) rest).map RunLogEntry.latency).sum -
              successTotal (shiftRes res) rest) := by
      ring
    rw [hsplit]
    calc |(round2 (res 0).latency - (res 0).latency) +
            (((successLog (shiftRes res) rest).map RunLogEntry.latency).sum -
              successTotal (shiftRes res) rest)| ≤
          |round2 (res 0).latency - (res 0).latency| +
            |((successLog (shiftRes res) rest).map RunLogEntry.latency).sum -
              successTotal (shiftRes res) rest| := abs_add _ _
      _ ≤ 1 / 200 + rest.length * (1 / 200) := add_le_add h1 h2
      _ = (rest.length + 1) * (1 / 200) := by ring
      _ = ((rest.length + 1 : Nat) : ℚ) * (1 / 200) := by push_cast; ring

/-- The first invocation of a nonempty chain receives the initial input. -/
theorem runChainLoop_trace_head :
    ∀ (cfgs : List AgentDefinition) (oracle : ModelOracle) (input : String),
      cfgs ≠ [] → ((runChainLoop oracle cfgs input).2.2.2).get? 0 = some input := by
  intro cfgs oracle input h
  cases cfgs with
  | nil => exact absurd rfl h
  | cons c rest =>
    cases h0 : oracle 0 input <;> simp [runChainLoop, h0]

/-- Every invocation after the first receives exactly the output recorded
for the previous step. -/
theorem runChainLoop_handoff :
    ∀ (cfgs : List AgentDefinition) (oracle : ModelOracle) (input : String) (k : Nat)
      (s : String),
      ((runChainLoop oracle cfgs input).2.2.2).get? (k + 1) = some s →
      ∃ e, ((runChainLoop oracle cfgs input).1).get? k = some e ∧ s = e.output := by
  intro cfgs
  induction cfgs with
  | nil => intro oracle input k s h; simp [runChainLoop] at h
  | cons c rest ih =>
    intro oracle input k s h
    cases h0 : oracle 0 input with
    | fail msg =>
      rw [runChainLoop] at h
      simp only [h0, List.get?_cons_succ] at h
      simp at h
    | ok r =>
      rw [runChainLoop] at h ⊢
      simp only [h0, List.get?_cons_succ] at h ⊢
      cases k with
      | zero =>
        cases hr : rest with
        | nil =>
          rw [hr] at h
          simp [runChainLoop] at h
        | cons c2 rest2 =>
          have hhead := runChainLoop_trace_head rest (fun k s => oracle (k + 1) s)
            (r.text.getD "") (by rw [hr]; simp)
          rw [hhead] at h
          exact ⟨_, rfl, by simpa using h.symm⟩
      | succ k' =>
        obtain ⟨e, he, hs⟩ := ih (fun k s => oracle (k + 1) s) (r.text.getD "") k' s h
        exact ⟨e, by simpa using he, hs⟩

/-! ### Claims about the chain executor -/

/-- C2: when step i (1-based) is the first failing invocation, the run
terminates with exactly i service calls made (none after the failing agent,
no retry of it), a run log holding exactly the i-1 completed entries,
a non-null error, `isRunning` false, and metrics reflecting only the
completed prefix. -/
theorem claim_c2_failure_aborts (w : Workspace) (baseInput : String) (oracle : ModelOracle)
    (res : Nat → InvokeResult) (msg : String) (i : Nat)
    (h1 : 1 ≤ i) (h2 : i ≤ (derefAgents w).length)
    (hok : ∀ k, k < i - 1 → ∀ s, oracle k s = CallOutcome.ok (res k))
    (hfail : ∀ s, oracle (i - 1) s = CallOutcome.fail msg) :
    ((handleRunChain w baseInput oracle).2.length = i) ∧
    ((handleRunChain w baseInput oracle).1.runLog.length = i - 1) ∧
    ((handleRunChain w baseInput oracle).1.error = some msg) ∧
    ((handleRunChain w baseInput oracle).1.error ≠ none) ∧
    ((handleRunChain w baseInput oracle).1.isRunning = false) ∧
    ((handleRunChain w baseInput oracle).1.metrics.agents_run = i - 1) ∧
    ((handleRunChain w baseInput oracle).1.metrics.latency =
      ∑ k ∈ Finset.range (i - 1), (res k).latency) ∧
    (∀ k cfg, k < i - 1 → (derefAgents w).get? k = some cfg →
      (handleRunChain w baseInput oracle).1.runLog.get? k =
        some { agentName := cfg.name, model := cfg.model,
               output := (res k).text.getD "", latency := round2 (res k).latency }) := by
  have hj : i - 1 < (derefAgents w).length := by omega
  have hrun := runChainLoop_fail (derefAgents w) oracle res msg (i - 1) baseInput hj hok hfail
  have htakelen : ((derefAgents w).take (i - 1)).length = i - 1 := by
    rw [List.length_take]
    omega
  refine ⟨?_, ?_, ?_, ?_, ?_, ?_, ?_, ?_⟩
  · simp only [handleRunChain, hrun, List.length_append, List.length_singleton,
      successTrace_length, htakelen]
    omega
  · simp only [handleRunChain, hrun, successLog_length, htakelen]
  · simp only [handleRunChain, hrun]
  · simp only [handleRunChain, hrun]
    simp
  · simp only [handleRunChain, hrun]
  · simp only [handleRunChain, hrun, successLog_length, htakelen]
  · simp only [handleRunChain, hrun]
    rw [successTotal_eq_sum, htakelen]
  · intro k cfg hk hcfg
    simp only [handleRunChain, hrun]
    refine successLog_entry _ res k cfg ?_
    rw [List.get?_eq_getElem?, List.getElem?_take_of_lt (show k < i - 1 by omega),
      ← List.get?_eq_getElem?]
    exact hcfg

/-- Witness for C2: the initial 4-agent chain with agent 2 failing yields
exactly 2 calls, one log entry, a non-null error and a cleared running
flag. -/
theorem claim_c2_witness :
    ((handleRunChain initialWorkspace "seed" oracleFail).2.length = 2) ∧
    ((handleRunChain initialWorkspace "seed" oracleFail).1.runLog.length = 2 - 1) ∧
    ((handleRunChain initialWorkspace "seed" oracleFail).1.error = some "Service error") ∧
    ((handleRunChain initialWorkspace "seed" oracleFail).1.error ≠ none) ∧
    ((handleRunChain initialWorkspace "seed" oracleFail).1.isRunning = false) ∧
    ((handleRunChain initialWorkspace "seed" oracleFail).1.metrics.agents_run = 2 - 1) ∧
    ((handleRunChain initialWorkspace "seed" oracleFail).1.metrics.latency =
      ∑ k ∈ Finset.range (2 - 1), (resW k).latency) ∧
    (∀ k cfg, k < 2 - 1 → (derefAgents initialWorkspace).get? k = some cfg →
      (handleRunChain initialWorkspace "seed" oracleFail).1.runLog.get? k =
        some { agentName := cfg.name, model := cfg.model,
               output := (resW k).text.getD "", latency := round2 (resW k).latency }) :=
  claim_c2_failure_aborts initialWorkspace "seed" oracleFail resW "Service error" 2
    (by decide) (by decide)
    (fun k hk s => by
      cases k with
      | zero => rfl
      | succ n => exact absurd hk (by omega))
    (fun s => rfl)

/-- C3: a fully successful run over N configured agents ends with N log
entries, `agents_run = N`, total latency equal to the full-precision sum of
the per-step latencies, each entry displaying its step latency rounded to
two decimals, and the sum of the displayed latencies within N/200 of the
aggregated total. -/
theorem claim_c3_successful_run (w : Workspace) (baseInput : String) (oracle : ModelOracle)
    (res : Nat → InvokeResult)
    (h : ∀ k, k < (derefAgents w).length → ∀ s, oracle k s = CallOutcome.ok (res k)) :
    ((handleRunChain w baseInput oracle).1.runLog.length = (derefAgents w).length) ∧
    ((handleRunChain w baseInput oracle).1.metrics.agents_run = (derefAgents w).length) ∧
    ((handleRunChain w baseInput oracle).1.error = none) ∧
    ((handleRunChain w baseInput oracle).1.isRunning = false) ∧
    ((handleRunChain w baseInput oracle).1.metrics.latency =
      ∑ k ∈ Finset.range (derefAgents w).length, (res k).latency) ∧
    (∀ k cfg, (derefAgents w).get? k = some cfg →
      (handleRunChain w baseInput oracle).1.runLog.get? k =
        some { agentName := cfg.name, model := cfg.model,
               output := (res k).text.getD "", latency := round2 (res k).latency }) ∧
    (|((handleRunChain w baseInput oracle).1.runLog.map RunLogEntry.latency).sum -
        (handleRunChain w baseInput oracle).1.metrics.latency| ≤
      (derefAgents w).length * (1 / 200)) := by
  have hrun := runChainLoop_success (derefAgents w) oracle res baseInput h
  refine ⟨?_, ?_, ?_, ?_, ?_, ?_, ?_⟩
  · simp only [handleRunChain, hrun]
    exact successLog_length _ _
  · simp only [handleRunChain, hrun]
    exact successLog_length _ _
  · simp only [handleRunChain, hrun]
  · simp only [handleRunChain, hrun]
  · simp only [handleRunChain, hrun]
    rw [successTotal_eq_sum]
  · intro k cfg hcfg
    simp only [handleRunChain, hrun]
    exact successLog_entry _ res k cfg hcfg
  · simp only [handleRunChain, hrun]
    exact latency_sum_close (derefAgents w) res

/-- Witness for C3: the initial 4-agent chain with every call succeeding. -/
theorem claim_c3_witness :
    ((handleRunChain initialWorkspace "seed" oracleOK).1.runLog.length =
      (derefAgents initialWorkspace).length) ∧
    ((handleRunChain initialWorkspace "seed" oracleOK).1.metrics.agents_run =
      (derefAgents initialWorkspace).length) ∧
    ((handleRunChain initialWorkspace "seed" oracleOK).1.error = none) ∧
    ((handleRunChain initialWorkspace "seed" oracleOK).1.isRunning = false) ∧
    ((handleRunChain initialWorkspace "seed" oracleOK).1.metrics.latency =
      ∑ k ∈ Finset.range (derefAgents initialWorkspace).length, (resW k).latency) ∧
    (∀ k cfg, (derefAgents initialWorkspace).get? k = some cfg →
      (handleRunChain initialWorkspace "seed" oracleOK).1.runLog.get? k =
        some { agentName := cfg.name, model := cfg.model,
               output := (resW k).text.getD "", latency := round2 (resW k).latency }) ∧
    (|((handleRunChain initialWorkspace "seed" oracleOK).1.runLog.map
          RunLogEntry.latency).sum -
        (handleRunChain initialWorkspace "seed" oracleOK).1.metrics.latency| ≤
      (derefAgents initialWorkspace).length * (1 / 200)) :=
  claim_c3_successful_run initialWorkspace "seed" oracleOK resW (fun _ _ _ => rfl)

/-- C4: the first invocation of a run receives the initial input string
exactly, and every later invocation receives, byte for byte, the output
recorded for the previous step (including an empty output). -/
theorem claim_c4_handoff (w : Workspace) (baseInput : String) (oracle : ModelOracle) :
    (derefAgents w ≠ [] →
      (handleRunChain w baseInput oracle).2.get? 0 = some baseInput) ∧
    (∀ k s, (handleRunChain w baseInput oracle).2.get? (k + 1) = some s →
      ∃ e, (handleRunChain w baseInput oracle).1.runLog.get? k = some e ∧ s = e.output) := by
  constructor
  · intro h
    simpa [handleRunChain] using runChainLoop_trace_head (derefAgents w) oracle baseInput h
  · intro k s h
    have h' : ((runChainLoop oracle (derefAgents w) baseInput).2.2.2).get? (k + 1) = some s := by
      simpa [handleRunChain] using h
    simpa [handleRunChain] using runChainLoop_handoff (derefAgents w) oracle baseInput k s h'

/-- Witness for C4: on the initial 4-agent chain with `oracleOK`, call 0
receives the initial input and call 1 receives exactly the recorded output
of step 0. -/
theorem claim_c4_witness :
    ((handleRunChain initialWorkspace "seed" oracleOK).2.get? 0 = some "seed") ∧
    (∃ e, (handleRunChain initialWorkspace "seed" oracleOK).1.runLog.get? 0 = some e ∧
      "0" = e.output) :=
  ⟨(claim_c4_handoff initialWorkspace "seed" oracleOK).1 (by decide),
   (claim_c4_handoff initialWorkspace "seed" oracleOK).2 0 "0" (by decide)⟩

/-- Witness for the amended C6 on a concrete two-page document. -/
theorem claim_c6_witness :
    (["page one", "page two"] : List String) ≠ [] ∧
    ((handlePdfUpload initialWorkspace ["page one", "page two"]).rawText =
        specSeparatorConcat ["page one", "page two"] ++ "\n\n" ∧
      (handlePdfUpload initialWorkspace ["page one", "page two"]).metrics.ocr_pages =
        (["page one", "page two"] : List String).length ∧
      (handlePdfUpload initialWorkspace ["page one", "page two"]).metrics.chars =
        (handlePdfUpload initialWorkspace ["page one", "page two"]).rawText.length ∧
      ∀ contents,
        (handleFileChange initialWorkspace (UploadedFile.text contents)).metrics.ocr_pages = 0) :=
  ⟨by decide, claim_c6_amended initialWorkspace ["page one", "page two"] (by decide)⟩

end Workbench
